import Mathlib

/-!
Verification of the stash Python plugin example.

Shallow embedding of `pkg/plugin/examples/python/pyplugin.py` and
`pkg/plugin/examples/python/stash_interface.py`: the plugin protocol handler
(`main`/`run`), the operation dispatcher (`addTag`, `removeTag`, `doLongTask`,
`doIndefiniteTask`) and the GraphQL client (`StashInterface.__init__`,
`__callGraphQL`, and the convenience operations).

The remote GraphQL service itself is not part of the two source files; its
visible behaviour (what the queries answer and what the mutations change) is
modelled from the spec as a `Remote` state, so that call sequences and state
evolution across invocations can be stated.  Progress values, computed with
Python floats in the source, are modelled as exact rationals: every claim about
them concerns only the exact fractions `step/total`.
-/

namespace Stash

/-- A remote tag entity: opaque id plus name, as returned by the `allTags` query. -/
structure Tag where
  id : Nat
  name : String
deriving DecidableEq

/-- A remote scene entity: opaque id plus its list of tag ids, as returned by the
`findScenes` query. -/
structure Scene where
  id : Nat
  tags : List Nat
deriving DecidableEq

/-- Modelled from the spec: the state of the remote GraphQL service (the server
side is outside the two embedded source files).  `allTags` is what the `allTags`
query answers, `scenes` is the scene list in the order the server would return it
for the `findScenes` query (`sort: random` is modelled as an arbitrary but fixed
order, so the first scene is "the random scene"), and `nextTagId` is the id the
server assigns to the next created tag. -/
structure Remote where
  allTags : List Tag
  scenes : List Scene
  nextTagId : Nat
deriving DecidableEq

/-- One remote GraphQL call, as issued by the convenience operations of
`StashInterface`.  `findTags` and `findRandomScene` are queries; `createTag`,
`destroyTag` and `updateScene` are mutations. -/
inductive Call where
  | findTags
  | createTag (name : String)
  | destroyTag (id : Nat)
  | findRandomScene
  | updateScene (sceneId : Nat) (tagIds : List Nat)
deriving DecidableEq

/-- Whether a call is a mutation (`tagCreate`, `tagDestroy`, `sceneUpdate`). -/
def Call.isMutation : Call → Bool
  | .createTag _ => true
  | .destroyTag _ => true
  | .updateScene _ _ => true
  | _ => false

/-- Whether a call is a `sceneUpdate` mutation. -/
def Call.isUpdateScene : Call → Bool
  | .updateScene _ _ => true
  | _ => false

/-- Whether a call is a `tagDestroy` mutation. -/
def Call.isDestroyTag : Call → Bool
  | .destroyTag _ => true
  | _ => false

/-- The Python exceptions the embedded code can raise.  `transport` is the
`Exception("GraphQL query failed:{status_code} - {content}...")` raised on a
non-200 HTTP status, `graphQLError` the `Exception(f"GraphQL error: {error}")`
raised while iterating the response's error list, `jsonDecode` the error raised
by `response.json()` on a non-JSON body, `noTarget` the
`Exception("no scenes to add tag to")`, and `attributeError` the
`AttributeError` raised by `None.get(...)`. -/
inductive PyExc where
  | transport (status : Nat) (content : String)
  | graphQLError (message : String)
  | jsonDecode
  | noTarget
  | attributeError
deriving DecidableEq

/-- The `SessionCookie` entry of the `server_connection` mapping: a dictionary
whose `Value` key (itself optional, read with `.get`) holds the cookie value. -/
structure SessionCookie where
  value : Option String
deriving DecidableEq

/-- The `server_connection` mapping handed to `StashInterface.__init__`:
`Scheme`, `Port`, and the optional `SessionCookie` dictionary (`conn.get`). -/
structure Connection where
  scheme : String
  port : Nat
  sessionCookie : Option SessionCookie
deriving DecidableEq

/-- The state a constructed `StashInterface` holds: the endpoint URL and the
`session` cookie value. -/
structure StashInterface where
  url : String
  cookieSession : Option String
deriving DecidableEq

/-- Embedding of `StashInterface.__init__`: builds
`{scheme}://localhost:{port}/graphql` and then evaluates
`conn.get('SessionCookie').get('Value')`.  When the `SessionCookie` key is
absent, `conn.get('SessionCookie')` is `None` and calling `.get` on it raises
`AttributeError`, so construction fails. -/
def StashInterface.init (conn : Connection) : Except PyExc StashInterface :=
  match conn.sessionCookie with
  | none => .error .attributeError
  | some sc =>
      .ok { url := conn.scheme ++ "://localhost:" ++ toString conn.port ++ "/graphql"
            cookieSession := sc.value }

/-- The parsed Invocation Input: `args["mode"]` and `server_connection`. -/
structure InvocationInput where
  mode : String
  serverConnection : Connection
deriving DecidableEq

/-- Embedding of the command-line fallback in `main`: `argv[1]` becomes the
mode and the synthetic connection is `{"Scheme": "http", "Port": 9999}`, with no
`SessionCookie` entry. -/
def defaultCliInput (mode : String) : InvocationInput :=
  { mode := mode
    serverConnection := { scheme := "http", port := 9999, sessionCookie := none } }

/-- The Invocation Output dictionary `main` serializes: the code only ever sets
`output["output"] = "ok"`; the `error` field exists in the declared schema but
is never populated by the source (the assignment is commented out). -/
structure Output where
  output : Option String
  error : Option String
deriving DecidableEq

/-- The fixed tag name used by the add/remove operations. -/
def tagName : String := "Hawwwwt"

/-- Embedding of `StashInterface.findTagIdWithName`: runs the `allTags` query
and returns the id of the first tag whose name matches, else `None`. -/
def findTagIdWithName (r : Remote) (name : String) : Option Nat :=
  (r.allTags.find? (fun t => t.name == name)).map Tag.id

/-- Embedding of `StashInterface.createTagWithName`; the server effect
(assigning the fresh id and appending the tag) is modelled from the spec.
Returns the new tag's id together with the updated remote state. -/
def createTagWithName (r : Remote) (name : String) : Nat × Remote :=
  (r.nextTagId,
   { r with
      allTags := r.allTags ++ [{ id := r.nextTagId, name := name }]
      nextTagId := r.nextTagId + 1 })

/-- Modelled from the spec: the server effect of the `tagDestroy` mutation
issued by `StashInterface.destroyTag`. -/
def destroyTagRemote (r : Remote) (id : Nat) : Remote :=
  { r with allTags := r.allTags.filter (fun t => t.id != id) }

/-- Embedding of `StashInterface.findRandomSceneId`: returns `None` when the
reported count is zero, else the first returned scene (the server's random
ordering is modelled as the fixed order of `Remote.scenes`). -/
def findRandomSceneId (r : Remote) : Option Scene :=
  if r.scenes.length == 0 then none else r.scenes.head?

/-- Modelled from the spec: the server effect of the `sceneUpdate` mutation
issued by `StashInterface.updateScene` — it replaces the identified scene's tag
list wholesale. -/
def updateSceneRemote (r : Remote) (sceneId : Nat) (tagIds : List Nat) : Remote :=
  { r with
      scenes := r.scenes.map
        (fun s => if s.id == sceneId then { s with tags := tagIds } else s) }

/-- The tag-id list `addTag` sends to `updateScene`: the scene's tag ids with
the first occurrence of the target id removed (`tagIds.remove(tagID)` guarded
by `except ValueError: pass`, i.e. a no-op when absent) and the target id
appended. -/
def addTagTransform (tagID : Nat) (tagIds : List Nat) : List Nat :=
  tagIds.erase tagID ++ [tagID]

/-- Continuation of `addTag` after the tag id is known: pick a random scene,
raise when there is none, else send the transformed tag list to `updateScene`.
`calls` are the remote calls already issued while resolving the tag. -/
def addTagWithId (r : Remote) (tagID : Nat) (calls : List Call) :
    List Call × Except PyExc Remote :=
  match findRandomSceneId r with
  | none => (calls ++ [Call.findRandomScene], .error .noTarget)
  | some scene =>
      let tagIds := addTagTransform tagID scene.tags
      (calls ++ [Call.findRandomScene, Call.updateScene scene.id tagIds],
       .ok (updateSceneRemote r scene.id tagIds))

/-- Embedding of `addTag` in `pyplugin.py`: resolve the fixed tag by name,
create it when absent, then tag a random scene.  Returns the issued remote
calls in order together with either the updated remote state or the raised
exception. -/
def addTag (r : Remote) : List Call × Except PyExc Remote :=
  match findTagIdWithName r tagName with
  | some tagID => addTagWithId r tagID [Call.findTags]
  | none =>
      let created := createTagWithName r tagName
      addTagWithId created.2 created.1 [Call.findTags, Call.createTag tagName]

/-- Embedding of `removeTag` in `pyplugin.py`: resolve the fixed tag by name;
when absent, log and return (a no-op); otherwise destroy it. -/
def removeTag (r : Remote) : List Call × Except PyExc Remote :=
  match findTagIdWithName r tagName with
  | none => ([Call.findTags], .ok r)
  | some tagID =>
      ([Call.findTags, Call.destroyTag tagID], .ok (destroyTagRemote r tagID))

/-- An observable event of a long-running operation: a `time.sleep(1)` pause or
a `log.LogProgress` report carrying the fractional progress value. -/
inductive Ev where
  | sleep
  | progress (value : ℚ)

/-- The progress fraction `float(upTo) / float(total)` reported by
`doLongTask`, modelled as the exact rational `upTo / 100`. -/
def progressValue (upTo : Nat) : ℚ := (upTo : ℚ) / 100

/-- Embedding of `doLongTask`: for `upTo in range(100)`, sleep one second and
then report progress `upTo/100`. -/
def doLongTask : List Ev :=
  (List.range 100).flatMap (fun upTo => [Ev.sleep, Ev.progress (progressValue upTo)])

/-- The progress values carried by a list of events, in emission order. -/
def progressValues (evs : List Ev) : List ℚ :=
  evs.filterMap (fun e =>
    match e with
    | Ev.progress v => some v
    | Ev.sleep => none)

/-- How a dispatched invocation ends: normally, with a raised exception that
propagates out of `run` (the `except` clause only re-raises), or — for the
`indef` operation — never. -/
inductive Outcome where
  | ok (r : Remote)
  | exc (e : PyExc)
  | diverges
deriving DecidableEq

/-- Everything observable about one `run` dispatch: the remote calls issued,
the sleep/progress events emitted, and how it ended. -/
structure RunResult where
  calls : List Call
  events : List Ev
  outcome : Outcome

/-- Embedding of `run` in `pyplugin.py`: dispatch on `args["mode"]`.  Modes
`""`/`"add"` and `"remove"` construct a `StashInterface` and run the tag
operation; `"long"` runs `doLongTask`; `"indef"` never returns (its unbounded
sleep loop is represented by the `diverges` outcome); any other mode falls
through.  The `except` clause re-raises, so an exception escapes `run` as the
`exc` outcome; otherwise `output["output"] = "ok"` is reached. -/
def run (r : Remote) (input : InvocationInput) : RunResult :=
  if input.mode = "" ∨ input.mode = "add" then
    match StashInterface.init input.serverConnection with
    | .error e => ⟨[], [], .exc e⟩
    | .ok _ =>
        match addTag r with
        | (calls, .error e) => ⟨calls, [], .exc e⟩
        | (calls, .ok r2) => ⟨calls, [], .ok r2⟩
  else if input.mode = "remove" then
    match StashInterface.init input.serverConnection with
    | .error e => ⟨[], [], .exc e⟩
    | .ok _ =>
        match removeTag r with
        | (calls, .error e) => ⟨calls, [], .exc e⟩
        | (calls, .ok r2) => ⟨calls, [], .ok r2⟩
  else if input.mode = "long" then
    ⟨[], doLongTask, .ok r⟩
  else if input.mode = "indef" then
    ⟨[], [], .diverges⟩
  else
    ⟨[], [], .ok r⟩

/-- Embedding of the tail of `main`: the terminal line `print(json.dumps(output))`
is reached only when `run` returns; a raised exception aborts the process first
and the `indef` operation never returns, so nothing is printed in those cases. -/
def terminalOutput (res : RunResult) : Option Output :=
  match res.outcome with
  | .ok _ => some { output := some "ok", error := none }
  | .exc _ => none
  | .diverges => none

/-- The body of a 200 response parsed as JSON, as `__callGraphQL` reads it:
`error` models `result.get("error")` — `some l` stands for a present (hence
truthy) dictionary `{"errors": l}` — and `data` models `result.get("data")`,
a possibly empty field mapping. -/
structure GQLResult where
  error : Option (List String)
  data : Option (List (String × String))
deriving DecidableEq

/-- An HTTP response as `__callGraphQL` observes it: the status code, the raw
body `response.content`, and the result of `response.json()` (`none` when the
body is not JSON, in which case `response.json()` raises). -/
structure HTTPResponse where
  statusCode : Nat
  content : String
  jsonBody : Option GQLResult
deriving DecidableEq

/-- The fall-through tail of `__callGraphQL`: `if result.get("data", None):
return result.get("data")` — the data mapping is returned only when present and
truthy (non-empty); otherwise the function returns `None`. -/
def gqlDataValue (result : GQLResult) : Option (List (String × String)) :=
  match result.data with
  | some d => if d.isEmpty then none else some d
  | none => none

/-- Embedding of `StashInterface.__callGraphQL` from the response on: a status
code other than 200 raises the transport exception before the body is ever
parsed; on 200 the body is parsed as JSON, a present `error` field with a
non-empty `errors` list raises on its first entry, and otherwise the (truthy)
`data` field or `None` is returned. -/
def callGraphQL (resp : HTTPResponse) : Except PyExc (Option (List (String × String))) :=
  if resp.statusCode ≠ 200 then
    .error (.transport resp.statusCode resp.content)
  else
    match resp.jsonBody with
    | none => .error .jsonDecode
    | some result =>
        match result.error with
        | some (e :: _) => .error (.graphQLError e)
        | some [] => .ok (gqlDataValue result)
        | none => .ok (gqlDataValue result)

/-- The tag id `addTag` ends up using: the id found for the fixed name, or the
id the server assigns when the tag has to be created. -/
def resolvedTagId (r : Remote) : Nat :=
  (findTagIdWithName r tagName).getD r.nextTagId

/-- The remote state after `addTag` has resolved the tag id (unchanged when the
tag was found, extended by the created tag otherwise). -/
def addTagBase (r : Remote) : Remote :=
  match findTagIdWithName r tagName with
  | some _ => r
  | none => (createTagWithName r tagName).2

/-- The `Outcome` a tag operation's result turns into at the `run` boundary. -/
def outcomeOf : Except PyExc Remote → Outcome
  | .ok r => .ok r
  | .error e => .exc e

/-- Whether a `__callGraphQL` result is a raised `GraphQLError`. -/
def isGraphQLFailure : Except PyExc (Option (List (String × String))) → Bool
  | .error (.graphQLError _) => true
  | _ => false

/-- A remote with no tags and no scenes. -/
def emptyRemote : Remote := { allTags := [], scenes := [], nextTagId := 1 }

/-- A remote on which the fixed tag already exists and no scene exists. -/
def noScenesRemote : Remote :=
  { allTags := [{ id := 1, name := tagName }], scenes := [], nextTagId := 2 }

/-- A remote with the fixed tag (id 5) and one scene (id 10) tagged `[3, 5]`. -/
def taggedSceneRemote : Remote :=
  { allTags := [{ id := 5, name := tagName }]
    scenes := [{ id := 10, tags := [3, 5] }]
    nextTagId := 6 }

/-- A remote with the fixed tag (id 5) and one scene (id 10) tagged `[3]`. -/
def untaggedSceneRemote : Remote :=
  { allTags := [{ id := 5, name := tagName }]
    scenes := [{ id := 10, tags := [3] }]
    nextTagId := 6 }

/-- A well-formed stdin-style invocation input carrying a session cookie. -/
def stdinInput (mode : String) : InvocationInput :=
  { mode := mode
    serverConnection :=
      { scheme := "http", port := 9999
        sessionCookie := some { value := some "cookie" } } }

/-- A 201 response whose JSON body carries a non-empty error list. -/
def resp201 : HTTPResponse :=
  { statusCode := 201, content := "body"
    jsonBody := some { error := some ["boom"], data := none } }

/-- A 200 response whose JSON body carries a non-empty error list and data. -/
def resp200errors : HTTPResponse :=
  { statusCode := 200, content := "body"
    jsonBody := some { error := some ["boom", "second"], data := some [("k", "v")] } }

/-! Helper lemmas. -/

theorem findRandomSceneId_eq_head (r : Remote) : findRandomSceneId r = r.scenes.head? := by
  unfold findRandomSceneId
  cases h : r.scenes with
  | nil => simp
  | cons a l => simp

theorem addTagBase_scenes (r : Remote) : (addTagBase r).scenes = r.scenes := by
  unfold addTagBase
  cases h : findTagIdWithName r tagName with
  | none => rfl
  | some t => rfl

theorem addTag_eq_of_scene (r : Remote) (s : Scene) (hs : r.scenes.head? = some s) :
    addTag r =
      ((match findTagIdWithName r tagName with
        | some _ => [Call.findTags]
        | none => [Call.findTags, Call.createTag tagName]) ++
        [Call.findRandomScene,
         Call.updateScene s.id (addTagTransform (resolvedTagId r) s.tags)],
       .ok (updateSceneRemote (addTagBase r) s.id
         (addTagTransform (resolvedTagId r) s.tags))) := by
  cases h : findTagIdWithName r tagName with
  | some t =>
      simp [addTag, addTagBase, resolvedTagId, addTagWithId, findRandomSceneId_eq_head,
        hs, h]
  | none =>
      have hscenes : (createTagWithName r tagName).2.scenes = r.scenes := rfl
      simp [addTag, addTagBase, resolvedTagId, addTagWithId, findRandomSceneId_eq_head,
        createTagWithName, hscenes, hs, h]

theorem count_addTagTransform (t : Nat) (l : List Nat) (h : l.count t ≤ 1) :
    (addTagTransform t l).count t = 1 := by
  unfold addTagTransform
  rw [List.count_append, List.count_erase_self]
  have hz : l.count t - 1 = 0 := by omega
  rw [hz]
  simp

theorem filter_addTagTransform (t : Nat) (l : List Nat) :
    (addTagTransform t l).filter (fun x => x != t) = l.filter (fun x => x != t) := by
  unfold addTagTransform
  rw [List.filter_append]
  have h2 : [t].filter (fun x => x != t) = [] := by simp
  rw [h2, List.append_nil]
  induction l with
  | nil => rfl
  | cons a l ih =>
      by_cases ha : a = t
      · subst ha
        rw [List.erase_cons_head]
        simp
      · rw [List.erase_cons_tail (by simpa using ha)]
        simp only [List.filter_cons]
        rw [ih]

theorem getLast?_addTagTransform (t : Nat) (l : List Nat) :
    (addTagTransform t l).getLast? = some t := by
  unfold addTagTransform
  simp

theorem findTagIdWithName_addTagBase (r : Remote) :
    findTagIdWithName (addTagBase r) tagName = some (resolvedTagId r) := by
  unfold addTagBase resolvedTagId
  cases h : findTagIdWithName r tagName with
  | some t => exact h
  | none =>
      have hfind : r.allTags.find? (fun t => t.name == tagName) = none := by
        unfold findTagIdWithName at h
        exact Option.map_eq_none.mp h
      unfold findTagIdWithName createTagWithName
      simp [List.find?_append, hfind]

theorem updateSceneRemote_head (r : Remote) (s : Scene) (tids : List Nat)
    (hs : r.scenes.head? = some s) :
    (updateSceneRemote r s.id tids).scenes.head? = some { s with tags := tids } := by
  unfold updateSceneRemote
  cases h : r.scenes with
  | nil => rw [h] at hs; exact absurd hs (by simp)
  | cons a l =>
      rw [h] at hs
      have ha : a = s := by simpa using hs
      subst ha
      simp

theorem run_add_eq (r : Remote) (input : InvocationInput)
    (hmode : input.mode = "" ∨ input.mode = "add")
    (hconn : input.serverConnection.sessionCookie.isSome) :
    run r input = ⟨(addTag r).1, [], outcomeOf (addTag r).2⟩ := by
  obtain ⟨sc, hsc⟩ := Option.isSome_iff_exists.mp hconn
  unfold run
  rw [if_pos hmode]
  rw [StashInterface.init, hsc]
  cases h : addTag r with
  | mk calls res =>
      cases res with
      | error e => simp [outcomeOf]
      | ok r2 => simp [outcomeOf]

theorem run_remove_eq (r : Remote) (input : InvocationInput)
    (hmode : input.mode = "remove")
    (hconn : input.serverConnection.sessionCookie.isSome) :
    run r input = ⟨(removeTag r).1, [], outcomeOf (removeTag r).2⟩ := by
  obtain ⟨sc, hsc⟩ := Option.isSome_iff_exists.mp hconn
  unfold run
  have hne1 : ¬ (input.mode = "" ∨ input.mode = "add") := by
    rw [hmode]; decide
  rw [if_neg hne1, if_pos hmode]
  rw [StashInterface.init, hsc]
  cases h : removeTag r with
  | mk calls res =>
      cases res with
      | error e => simp [outcomeOf]
      | ok r2 => simp [outcomeOf]

theorem run_add_filter_update (r : Remote) (input : InvocationInput)
    (hmode : input.mode = "" ∨ input.mode = "add")
    (hconn : input.serverConnection.sessionCookie.isSome)
    (s : Scene) (hs : r.scenes.head? = some s) :
    (run r input).calls.filter Call.isUpdateScene
      = [Call.updateScene s.id (addTagTransform (resolvedTagId r) s.tags)] := by
  rw [run_add_eq r input hmode hconn]
  have h1 := addTag_eq_of_scene r s hs
  cases h : findTagIdWithName r tagName with
  | some t =>
      rw [h] at h1
      simp only [h1, List.filter_append]
      simp [Call.isUpdateScene]
  | none =>
      rw [h] at h1
      simp only [h1, List.filter_append]
      simp [Call.isUpdateScene]

theorem progressValues_flatMap (l : List Nat) :
    progressValues (l.flatMap (fun upTo => [Ev.sleep, Ev.progress (progressValue upTo)]))
      = l.map progressValue := by
  induction l with
  | nil => rfl
  | cons a l ih =>
      rw [List.flatMap_cons, List.map_cons]
      unfold progressValues at ih ⊢
      rw [List.filterMap_append, ih]
      rfl

theorem progressValues_doLongTask :
    progressValues doLongTask = (List.range 100).map progressValue := by
  unfold doLongTask
  exact progressValues_flatMap (List.range 100)

/-- C1: for every invocation with mode `""` or `"add"` against a remote whose
scene list is non-empty (and whose returned scene, being well formed, lists the
target tag id at most once), `updateScene` is called exactly once, and the
tag-id sequence it receives contains the target tag's id exactly once, whether
or not that id was already present. -/
theorem addTag_updateScene_once (r : Remote) (input : InvocationInput)
    (hmode : input.mode = "" ∨ input.mode = "add")
    (hconn : input.serverConnection.sessionCookie.isSome)
    (s : Scene) (hs : r.scenes.head? = some s)
    (hcount : s.tags.count (resolvedTagId r) ≤ 1) :
    (run r input).calls.filter Call.isUpdateScene
      = [Call.updateScene s.id (addTagTransform (resolvedTagId r) s.tags)] ∧
    (addTagTransform (resolvedTagId r) s.tags).count (resolvedTagId r) = 1 :=
  ⟨run_add_filter_update r input hmode hconn s hs,
   count_addTagTransform _ _ hcount⟩

/-- Witness for C1 at a remote whose only scene already carries the target tag. -/
theorem addTag_updateScene_once_witness :
    (run taggedSceneRemote (stdinInput "add")).calls.filter Call.isUpdateScene
      = [Call.updateScene (10 : Nat)
          (addTagTransform (resolvedTagId taggedSceneRemote) [3, 5])] ∧
    (addTagTransform (resolvedTagId taggedSceneRemote) [3, 5]).count
      (resolvedTagId taggedSceneRemote) = 1 :=
  addTag_updateScene_once taggedSceneRemote (stdinInput "add") (Or.inr rfl) rfl
    { id := 10, tags := [3, 5] } rfl (by decide)

/-- C2 (amended): for every `__callGraphQL` call whose HTTP response has status
exactly 200 and whose JSON body's error field carries a non-empty error list,
the client raises a `GraphQLError` carrying the first error message — so no
data mapping is ever returned on that path. -/
theorem callGraphQL_200_errors (resp : HTTPResponse) (result : GQLResult)
    (e : String) (rest : List String)
    (h200 : resp.statusCode = 200)
    (hbody : resp.jsonBody = some result)
    (herr : result.error = some (e :: rest)) :
    callGraphQL resp = .error (.graphQLError e) := by
  unfold callGraphQL
  rw [h200]
  simp [hbody, herr]

/-- Witness for C2 (amended) at a 200 response with two error messages. -/
theorem callGraphQL_200_errors_witness :
    callGraphQL resp200errors = .error (.graphQLError "boom") :=
  callGraphQL_200_errors resp200errors
    { error := some ["boom", "second"], data := some [("k", "v")] }
    "boom" ["second"] rfl rfl rfl

/-- Counterexample for C2 as stated: a 201 response (2xx) whose body carries a
non-empty error list makes `__callGraphQL` raise the transport exception (the
code tests for status exactly 200), not a `GraphQLError`. -/
theorem callGraphQL_2xx_errors_counterexample :
    (200 ≤ 201 ∧ 201 < 300) ∧
    callGraphQL resp201 = .error (.transport 201 "body") ∧
    isGraphQLFailure (callGraphQL resp201) = false :=
  ⟨by decide, rfl, rfl⟩

/-- C6: for every `__callGraphQL` call whose HTTP response has a non-2xx
status, the client raises the transport exception carrying the status code and
the raw body, and the result does not depend on the body's JSON content at all
— JSON decoding, error inspection and data extraction are never reached. -/
theorem callGraphQL_non2xx_transport (resp : HTTPResponse)
    (h : resp.statusCode < 200 ∨ 300 ≤ resp.statusCode) :
    callGraphQL resp = .error (.transport resp.statusCode resp.content) ∧
    ∀ b, callGraphQL { resp with jsonBody := b }
      = .error (.transport resp.statusCode resp.content) := by
  have hne : resp.statusCode ≠ 200 := by omega
  constructor
  · simp [callGraphQL, hne]
  · intro b
    simp [callGraphQL, hne]

/-- Witness for C6 at a 500 response. -/
theorem callGraphQL_non2xx_transport_witness :
    callGraphQL { statusCode := 500, content := "oops", jsonBody := none }
      = .error (.transport 500 "oops") :=
  (callGraphQL_non2xx_transport
    { statusCode := 500, content := "oops", jsonBody := none } (by decide)).1

/-- C4 (amended): for every invocation with mode `"add"` against a remote with
no scenes, the operation fails with the no-target exception and issues neither
an `updateScene` nor a `destroyTag` mutation; a `createTag` mutation is still
issued when the fixed tag does not already exist remotely. -/
theorem addTag_no_scene_fails (r : Remote) (input : InvocationInput)
    (hmode : input.mode = "add")
    (hconn : input.serverConnection.sessionCookie.isSome)
    (hs : r.scenes = []) :
    (run r input).outcome = .exc .noTarget ∧
    (run r input).calls.filter Call.isUpdateScene = [] ∧
    (run r input).calls.filter Call.isDestroyTag = [] := by
  rw [run_add_eq r input (Or.inr hmode) hconn]
  cases h : findTagIdWithName r tagName with
  | some t =>
      simp [addTag, addTagWithId, findRandomSceneId_eq_head, hs, h, outcomeOf,
        Call.isUpdateScene, Call.isDestroyTag]
  | none =>
      have hscenes : (createTagWithName r tagName).2.scenes = r.scenes := rfl
      simp [addTag, addTagWithId, findRandomSceneId_eq_head, hscenes, hs, h, outcomeOf,
        Call.isUpdateScene, Call.isDestroyTag]

/-- Witness for C4 (amended) at a remote where the fixed tag already exists. -/
theorem addTag_no_scene_fails_witness :
    (run noScenesRemote (stdinInput "add")).outcome = .exc .noTarget ∧
    (run noScenesRemote (stdinInput "add")).calls.filter Call.isUpdateScene = [] ∧
    (run noScenesRemote (stdinInput "add")).calls.filter Call.isDestroyTag = [] :=
  addTag_no_scene_fails noScenesRemote (stdinInput "add") rfl rfl rfl

/-- Counterexample for C4 as stated: with no remote scenes and the fixed tag
absent, the operation does fail with the no-target exception, but a `createTag`
mutation has already been issued — the mutation count is not zero. -/
theorem addTag_no_scene_counterexample :
    (run emptyRemote (stdinInput "add")).outcome = .exc .noTarget ∧
    (run emptyRemote (stdinInput "add")).calls.filter Call.isMutation
      = [Call.createTag tagName] :=
  ⟨rfl, rfl⟩

/-- C9: for every invocation with mode `"remove"` against a remote on which no
tag matches the fixed name, no mutation call is issued and the operation
succeeds, producing the success Invocation Output. -/
theorem removeTag_absent_noop (r : Remote) (input : InvocationInput)
    (hmode : input.mode = "remove")
    (hconn : input.serverConnection.sessionCookie.isSome)
    (htag : findTagIdWithName r tagName = none) :
    (run r input).calls.filter Call.isMutation = [] ∧
    terminalOutput (run r input) = some { output := some "ok", error := none } := by
  rw [run_remove_eq r input hmode hconn]
  constructor
  · simp [removeTag, htag, Call.isMutation]
  · simp [removeTag, htag, outcomeOf, terminalOutput]

/-- Witness for C9 at a remote with no tags at all. -/
theorem removeTag_absent_noop_witness :
    (run emptyRemote (stdinInput "remove")).calls.filter Call.isMutation = [] ∧
    terminalOutput (run emptyRemote (stdinInput "remove"))
      = some { output := some "ok", error := none } :=
  removeTag_absent_noop emptyRemote (stdinInput "remove") rfl rfl rfl

/-- C10: for every `"add"` invocation that reaches `updateScene`, the tag-id
sequence passed to it preserves the scene's tag ids other than the target id in
their original relative order, and its last element is the target id. -/
theorem addTag_preserves_other_tags (r : Remote) (input : InvocationInput)
    (hmode : input.mode = "add")
    (hconn : input.serverConnection.sessionCookie.isSome)
    (s : Scene) (hs : r.scenes.head? = some s) :
    (run r input).calls.filter Call.isUpdateScene
      = [Call.updateScene s.id (addTagTransform (resolvedTagId r) s.tags)] ∧
    (addTagTransform (resolvedTagId r) s.tags).filter (fun x => x != resolvedTagId r)
      = s.tags.filter (fun x => x != resolvedTagId r) ∧
    (addTagTransform (resolvedTagId r) s.tags).getLast? = some (resolvedTagId r) :=
  ⟨run_add_filter_update r input (Or.inr hmode) hconn s hs,
   filter_addTagTransform _ _,
   getLast?_addTagTransform _ _⟩

/-- Witness for C10 at a remote whose only scene carries one other tag. -/
theorem addTag_preserves_other_tags_witness :
    (run untaggedSceneRemote (stdinInput "add")).calls.filter Call.isUpdateScene
      = [Call.updateScene (10 : Nat)
          (addTagTransform (resolvedTagId untaggedSceneRemote) [3])] ∧
    (addTagTransform (resolvedTagId untaggedSceneRemote) [3]).filter
        (fun x => x != resolvedTagId untaggedSceneRemote)
      = [3].filter (fun x => x != resolvedTagId untaggedSceneRemote) ∧
    (addTagTransform (resolvedTagId untaggedSceneRemote) [3]).getLast?
      = some (resolvedTagId untaggedSceneRemote) :=
  addTag_preserves_other_tags untaggedSceneRemote (stdinInput "add") rfl rfl
    { id := 10, tags := [3] } rfl

theorem resolvedTagId_updateScene_base (r : Remote) (i : Nat) (tids : List Nat) :
    resolvedTagId (updateSceneRemote (addTagBase r) i tids) = resolvedTagId r := by
  unfold resolvedTagId
  have h : findTagIdWithName (updateSceneRemote (addTagBase r) i tids) tagName
      = findTagIdWithName (addTagBase r) tagName := rfl
  rw [h, findTagIdWithName_addTagBase]
  rfl

/-- C8: invoking the `"add"` operation twice in succession against the same
(well-formed) scene is idempotent with respect to the target tag: after the
second call the scene's tag-id sequence contains the target tag's id exactly
once. -/
theorem addTag_twice_idempotent (r r1 r2 : Remote) (s : Scene)
    (hs : r.scenes.head? = some s)
    (hcount : s.tags.count (resolvedTagId r) ≤ 1)
    (h1 : (addTag r).2 = .ok r1) (h2 : (addTag r1).2 = .ok r2) :
    r2.scenes.head? = some
      { id := s.id
        tags := addTagTransform (resolvedTagId r)
          (addTagTransform (resolvedTagId r) s.tags) } ∧
    (addTagTransform (resolvedTagId r)
      (addTagTransform (resolvedTagId r) s.tags)).count (resolvedTagId r) = 1 := by
  have e1 := addTag_eq_of_scene r s hs
  rw [e1] at h1
  simp only [] at h1
  have hr1 : r1 = updateSceneRemote (addTagBase r) s.id
      (addTagTransform (resolvedTagId r) s.tags) := by
    exact (Except.ok.inj h1).symm
  have hs1 : r1.scenes.head?
      = some { s with tags := addTagTransform (resolvedTagId r) s.tags } := by
    rw [hr1]
    exact updateSceneRemote_head (addTagBase r) s _ (by rw [addTagBase_scenes]; exact hs)
  have htr1 : resolvedTagId r1 = resolvedTagId r := by
    rw [hr1]
    exact resolvedTagId_updateScene_base r s.id _
  have e2 := addTag_eq_of_scene r1
    { s with tags := addTagTransform (resolvedTagId r) s.tags } hs1
  rw [e2] at h2
  simp only [] at h2
  have hr2 : r2 = updateSceneRemote (addTagBase r1) s.id
      (addTagTransform (resolvedTagId r1)
        (addTagTransform (resolvedTagId r) s.tags)) := by
    exact (Except.ok.inj h2).symm
  constructor
  · rw [hr2, htr1]
    exact updateSceneRemote_head (addTagBase r1)
      { s with tags := addTagTransform (resolvedTagId r) s.tags } _
      (by rw [addTagBase_scenes]; exact hs1)
  · exact count_addTagTransform _ _
      (le_of_eq (count_addTagTransform _ _ hcount))

/-- Witness for C8: a scene tagged `[3]` carries `[3, 5]` after the first call
and still `[3, 5]` after the second, with tag 5 present exactly once. -/
theorem addTag_twice_idempotent_witness :
    taggedSceneRemote.scenes.head? = some
      { id := (10 : Nat)
        tags := addTagTransform (resolvedTagId untaggedSceneRemote)
          (addTagTransform (resolvedTagId untaggedSceneRemote) [3]) } ∧
    (addTagTransform (resolvedTagId untaggedSceneRemote)
      (addTagTransform (resolvedTagId untaggedSceneRemote) [3])).count
        (resolvedTagId untaggedSceneRemote) = 1 :=
  addTag_twice_idempotent untaggedSceneRemote taggedSceneRemote taggedSceneRemote
    { id := 10, tags := [3] } rfl (by decide) rfl rfl

theorem run_long_eq (r : Remote) (input : InvocationInput) (hmode : input.mode = "long") :
    run r input = ⟨[], doLongTask, .ok r⟩ := by
  unfold run
  have h1 : ¬(input.mode = "" ∨ input.mode = "add") := by rw [hmode]; decide
  have h2 : ¬input.mode = "remove" := by rw [hmode]; decide
  rw [if_neg h1, if_neg h2, if_pos hmode]

/-- C5 (amended): every invocation with mode `"long"` emits exactly 100
progress reports, one after each pause, with strictly increasing values running
from `0.00` (step 0 of 100) up to `0.99` (step 99 of 100), all before the
terminal output is written. -/
theorem run_long_progress (r : Remote) (input : InvocationInput)
    (hmode : input.mode = "long") :
    (run r input).events = doLongTask ∧
    (progressValues (run r input).events).length = 100 ∧
    List.Chain' (· < ·) (progressValues (run r input).events) ∧
    (progressValues (run r input).events).head? = some (0 : ℚ) ∧
    (progressValues (run r input).events).getLast? = some (99 / 100 : ℚ) ∧
    terminalOutput (run r input) = some { output := some "ok", error := none } := by
  rw [run_long_eq r input hmode]
  refine ⟨rfl, ?_, ?_, ?_, ?_, rfl⟩
  · rw [progressValues_doLongTask]
    simp
  · rw [progressValues_doLongTask, List.chain'_map,
      show (100 : ℕ) = Nat.succ 99 from rfl, List.chain'_range_succ]
    intro m _
    have h1 : (m : ℚ) < ((m + 1 : ℕ) : ℚ) := by exact_mod_cast Nat.lt_succ_self m
    exact div_lt_div_of_pos_right h1 (by norm_num)
  · rw [progressValues_doLongTask, List.head?_map, List.range_succ_eq_map]
    simp [progressValue]
  · rw [progressValues_doLongTask, show (100 : ℕ) = 99 + 1 from rfl, List.range_succ,
      List.map_append]
    simp [progressValue]

/-- Witness for C5 (amended) at a concrete `"long"` invocation. -/
theorem run_long_progress_witness :
    (run emptyRemote (stdinInput "long")).events = doLongTask ∧
    (progressValues (run emptyRemote (stdinInput "long")).events).length = 100 ∧
    List.Chain' (· < ·) (progressValues (run emptyRemote (stdinInput "long")).events) ∧
    (progressValues (run emptyRemote (stdinInput "long")).events).head?
      = some (0 : ℚ) ∧
    (progressValues (run emptyRemote (stdinInput "long")).events).getLast?
      = some (99 / 100 : ℚ) ∧
    terminalOutput (run emptyRemote (stdinInput "long"))
      = some { output := some "ok", error := none } :=
  run_long_progress emptyRemote (stdinInput "long") rfl

/-- Counterexample for C5 as stated: the first reported value is `0/100 = 0.00`,
not `0.01`, and the last is `99/100 = 0.99`, not `1.00` — the loop reports
`upTo/total` for `upTo` in `range(100)`. -/
theorem doLongTask_values_counterexample :
    (progressValues doLongTask).head? = some (0 : ℚ) ∧
    (0 : ℚ) ≠ 1 / 100 ∧
    (progressValues doLongTask).getLast? = some (99 / 100 : ℚ) ∧
    (99 / 100 : ℚ) ≠ 1 := by
  refine ⟨?_, by norm_num, ?_, by norm_num⟩
  · rw [progressValues_doLongTask, List.head?_map, List.range_succ_eq_map]
    simp [progressValue]
  · rw [progressValues_doLongTask, show (100 : ℕ) = 99 + 1 from rfl, List.range_succ,
      List.map_append]
    simp [progressValue]

/-- C3: against the declared contract, a failing operation aborts the process
without any terminal Invocation Output — with mode `"add"` and no remote
scenes, the no-target exception escapes `run` (its handler re-raises) and the
terminal `print` is never reached, so no output with a populated error field is
written. -/
theorem run_failure_no_terminal_output :
    (run noScenesRemote (stdinInput "add")).outcome = .exc .noTarget ∧
    terminalOutput (run noScenesRemote (stdinInput "add")) = none :=
  ⟨rfl, rfl⟩

/-- C7: the command-line fallback builds the synthetic input with mode from
`argv[1]`, scheme `http` and port 9999 but no `SessionCookie` entry, and
constructing `StashInterface` from it fails with `AttributeError`
(`conn.get('SessionCookie')` is `None`, so `.get('Value')` raises), so the
`"add"` and `"remove"` operations never start. -/
theorem cli_fallback_construction_fails :
    defaultCliInput "add"
      = { mode := "add"
          serverConnection :=
            { scheme := "http", port := 9999, sessionCookie := none } } ∧
    StashInterface.init (defaultCliInput "add").serverConnection
      = .error .attributeError ∧
    (run emptyRemote (defaultCliInput "add")).outcome = .exc .attributeError ∧
    (run emptyRemote (defaultCliInput "remove")).outcome = .exc .attributeError :=
  ⟨rfl, rfl, rfl, rfl⟩

end Stash
